import Mathlib

/-!
Verification of `taxi-pipeline/taxi_pipeline.py`.

The script builds a declarative configuration for a paginated REST source
(base URL, static headers, `page_number` pagination starting at base page 1
with `total_path = None`), a pipeline targeting the `duckdb` destination
with dataset `taxi_data` and resource `taxi`, and runs it once.

The configuration literals below are transcribed from the source file.
The fetch-and-load runner itself lives in the external `dlt` library and is
not part of this repository; it is modelled from the specification
(section 4.1, Fetch-and-Load Runner).
-/

namespace TaxiPipeline

/-- Endpoint configuration: the `client` and `endpoint` sections of the
`config` dictionary built by `taxi_source` in `taxi_pipeline.py`. -/
structure EndpointConfig where
  base_url : String
  path : String
  headers : List (String × String)
  base_page : Nat
  total_path : Option String
deriving DecidableEq

/-- The literal configuration built by `taxi_source` in `taxi_pipeline.py`:
`base_url`, the `Content-Type: application/json` header, the resource path,
`page_number` pagination with `base_page = 1` and `total_path = None`. -/
def taxiConfig : EndpointConfig where
  base_url := "https://us-central1-dlthub-analytics.cloudfunctions.net"
  path := "data_engineering_zoomcamp_api"
  headers := [("Content-Type", "application/json")]
  base_page := 1
  total_path := none

/-- `pipeline_name="taxi_pipeline"` in the `dlt.pipeline(...)` call. -/
def pipeline_name : String := "taxi_pipeline"

/-- `destination="duckdb"` in the `dlt.pipeline(...)` call. -/
def destination : String := "duckdb"

/-- `dataset_name="taxi_data"` in the `dlt.pipeline(...)` call. -/
def dataset_name : String := "taxi_data"

/-- `"name": "taxi"` of the single resource in the config. -/
def resource_name : String := "taxi"

/-- One HTTP response as the runner sees it: a transport failure, a body
that is not valid JSON or not a JSON array, or a JSON array of records
(possibly accompanied by a total-count field, which the configuration
discards via `total_path = None`). Records are kept abstract (`α`). -/
inductive Response (α : Type) where
  | netFail : Response α
  | badBody : Response α
  | page (records : List α) (totalCount : Option Nat) : Response α
deriving DecidableEq

/-- The records carried by a response (empty for failures). -/
def Response.records {α : Type} : Response α → List α
  | .page recs _ => recs
  | _ => []

/-- A response that is a JSON array with at least one record. -/
def Response.isFullPage {α : Type} : Response α → Bool
  | .page (_ :: _) _ => true
  | _ => false

/-- One HTTP request issued by the runner: URL, path, headers, and the
page-number query parameter. -/
structure Request where
  url : String
  path : String
  headers : List (String × String)
  page : Nat
deriving DecidableEq

/-- How a run ends: normal termination on an empty page, a transport
failure, a malformed body, or the supplied response sequence running out
before any termination condition was met. -/
inductive Outcome where
  | ok : Outcome
  | netError : Outcome
  | decodeError : Outcome
  | exhausted : Outcome
deriving DecidableEq

/-- The summary reported at the end of a run. -/
structure Summary where
  recordsLoaded : Nat
  pagesFetched : Nat
deriving DecidableEq

/-- The observable result of a run: the requests issued in order, the
records forwarded to the load target in order, and how the run ended. -/
structure RunResult (α : Type) where
  log : List Request
  loaded : List α
  outcome : Outcome
deriving DecidableEq

/-- The summary of a run: total records loaded and pages fetched. -/
def RunResult.summary {α : Type} (r : RunResult α) : Summary :=
  ⟨r.loaded.length, r.log.length⟩

/-- The request issued for page `p` under configuration `cfg`. -/
def mkRequest (cfg : EndpointConfig) (p : Nat) : Request :=
  ⟨cfg.base_url, cfg.path, cfg.headers, p⟩

/-- Modelled from the spec: the loop of the Fetch-and-Load Runner
(section 4.1), which lives in the external `dlt` library and not in this
repository. Given the responses the endpoint returns for successive pages
and the current page index, it issues a request per page; a transport
failure or undecodable body ends the run with the corresponding error, an
empty array ends it normally, and a non-empty array is forwarded before
moving to the next page index. -/
def runLoop {α : Type} (cfg : EndpointConfig) :
    List (Response α) → Nat → RunResult α
  | [], _ => ⟨[], [], .exhausted⟩
  | .netFail :: _, p => ⟨[mkRequest cfg p], [], .netError⟩
  | .badBody :: _, p => ⟨[mkRequest cfg p], [], .decodeError⟩
  | .page [] _ :: _, p => ⟨[mkRequest cfg p], [], .ok⟩
  | .page (x :: xs) _ :: rest, p =>
      let r := runLoop cfg rest (p + 1)
      ⟨mkRequest cfg p :: r.log, (x :: xs) ++ r.loaded, r.outcome⟩

/-- The destination: tables addressed by dataset name and table name. -/
def Database (α : Type) := String → String → List α

/-- Append rows to one table of the destination, leaving every other
table untouched (no dedup, no merge). -/
def appendRows {α : Type} (db : Database α) (ds tbl : String)
    (recs : List α) : Database α :=
  fun d t => if d = ds ∧ t = tbl then db d t ++ recs else db d t

/-- Modelled from the spec: one execution of the script against a
destination state `db`, given the endpoint's responses. The runner starts
at the configured base page; every record it forwarded is appended to the
`taxi` table of the `taxi_data` dataset, whether or not the run ended in
an error (partial progress is not rolled back). -/
def runPipeline {α : Type} (db : Database α)
    (responses : List (Response α)) : RunResult α × Database α :=
  let r := runLoop taxiConfig responses taxiConfig.base_page
  (r, appendRows db dataset_name resource_name r.loaded)

/-- Erase the total-count field of every page response. -/
def stripTotals {α : Type} : Response α → Response α
  | .page recs _ => .page recs none
  | r => r

/-- Running past a prefix of full pages: the requests for those pages are
issued in order, their records are forwarded in order, and the run
continues on the remaining responses at the advanced page index. -/
lemma runLoop_over_full_pages {α : Type} (cfg : EndpointConfig)
    (pre suffix : List (Response α)) (p : Nat)
    (h : ∀ r ∈ pre, r.isFullPage = true) :
    runLoop cfg (pre ++ suffix) p =
      ⟨(List.range' p pre.length).map (mkRequest cfg)
          ++ (runLoop cfg suffix (p + pre.length)).log,
        (pre.map Response.records).flatten
          ++ (runLoop cfg suffix (p + pre.length)).loaded,
        (runLoop cfg suffix (p + pre.length)).outcome⟩ := by
  induction pre generalizing p with
  | nil => simp [Response.records]
  | cons r pre ih =>
      have hr : r.isFullPage = true := h r (List.mem_cons_self r pre)
      have hpre : ∀ r ∈ pre, r.isFullPage = true :=
        fun r hm => h r (List.mem_cons_of_mem _ hm)
      match r, hr with
      | .page (x :: xs) tc, _ =>
          have ihp := ih (p + 1) hpre
          have harith : p + (pre.length + 1) = p + 1 + pre.length := by omega
          rw [List.cons_append]
          show (⟨mkRequest cfg p :: (runLoop cfg (pre ++ suffix) (p + 1)).log,
              (x :: xs) ++ (runLoop cfg (pre ++ suffix) (p + 1)).loaded,
              (runLoop cfg (pre ++ suffix) (p + 1)).outcome⟩ : RunResult α)
            = _
          rw [ihp]
          simp [List.range'_succ, Response.records, harith]

/-- Every request the runner issues for page index `p` onwards carries the
configured URL, path and headers, and the page indices form the contiguous
increasing range starting at `p`. -/
lemma runLoop_log_shape {α : Type} (cfg : EndpointConfig)
    (responses : List (Response α)) (p : Nat) :
    (runLoop cfg responses p).log =
      (List.range' p (runLoop cfg responses p).log.length).map
        (mkRequest cfg) := by
  induction responses generalizing p with
  | nil => simp [runLoop]
  | cons r rest ih =>
      match r with
      | .netFail => simp [runLoop, List.range'_succ]
      | .badBody => simp [runLoop, List.range'_succ]
      | .page [] tc => simp [runLoop, List.range'_succ]
      | .page (x :: xs) tc =>
          simp only [runLoop, List.length_cons, List.range'_succ,
            List.map_cons, List.cons.injEq, true_and]
          exact ih (p + 1)

/-- The runner never reads the total-count field of a response: erasing
every total count leaves the run unchanged. -/
lemma runLoop_stripTotals {α : Type} (cfg : EndpointConfig)
    (responses : List (Response α)) (p : Nat) :
    runLoop cfg (responses.map stripTotals) p = runLoop cfg responses p := by
  induction responses generalizing p with
  | nil => rfl
  | cons r rest ih =>
      match r with
      | .netFail => rfl
      | .badBody => rfl
      | .page [] tc => rfl
      | .page (x :: xs) tc => simp [runLoop, stripTotals, ih (p + 1)]

/-- C1: for every response sequence in which some page is an empty JSON
array, the run terminates normally at the first empty page — the responses
after it are never consulted — and an empty page is the sole termination
condition: no total-count field is consulted (erasing every total-count
field leaves the run unchanged). -/
theorem C1_empty_page_sole_termination {α : Type}
    (pre rest : List (Response α)) (tc : Option Nat)
    (hpre : ∀ r ∈ pre, r.isFullPage = true) :
    (runLoop taxiConfig (pre ++ Response.page [] tc :: rest) 1).outcome
        = Outcome.ok
    ∧ runLoop taxiConfig (pre ++ Response.page [] tc :: rest) 1
        = runLoop taxiConfig (pre ++ [Response.page [] tc]) 1
    ∧ runLoop taxiConfig
          ((pre ++ Response.page [] tc :: rest).map stripTotals) 1
        = runLoop taxiConfig (pre ++ Response.page [] tc :: rest) 1 := by
  have h1 := runLoop_over_full_pages taxiConfig pre
      (Response.page [] tc :: rest) 1 hpre
  have h2 := runLoop_over_full_pages taxiConfig pre
      [Response.page [] tc] 1 hpre
  refine ⟨?_, ?_, runLoop_stripTotals _ _ _⟩
  · rw [h1]
    rfl
  · rw [h1, h2]
    rfl

/-- C1 witness: one full page, then an empty page carrying a total count,
then further responses that are never consulted. -/
theorem C1_witness :
    (∀ r ∈ [Response.page [(7 : Nat)] none], r.isFullPage = true)
    ∧ (runLoop taxiConfig
          ([Response.page [(7 : Nat)] none]
            ++ Response.page [] (some 5) :: [Response.netFail]) 1).outcome
        = Outcome.ok :=
  ⟨by decide,
    (C1_empty_page_sole_termination [Response.page [(7 : Nat)] none]
      [Response.netFail] (some 5) (by decide)).1⟩

/-- C2: the sequence of page indices used in successive requests is the
contiguous increasing range of integers starting at the configured base
page, which this script sets to 1. -/
theorem C2_page_indices_monotone {α : Type}
    (responses : List (Response α)) :
    taxiConfig.base_page = 1
    ∧ (runLoop taxiConfig responses
          taxiConfig.base_page).log.map Request.page
        = List.range' 1
            (runLoop taxiConfig responses taxiConfig.base_page).log.length := by
  refine ⟨rfl, ?_⟩
  conv_lhs => rw [runLoop_log_shape]
  rw [List.map_map]
  have : Request.page ∘ mkRequest taxiConfig = id := rfl
  rw [this, List.map_id]
  rfl

/-- C3: for k full pages followed by an empty page, the run loads exactly
the sum of the record counts of the full pages, fetches exactly k+1 pages,
and the summary reports those totals. -/
theorem C3_summary_reports_totals {α : Type}
    (pre rest : List (Response α)) (tc : Option Nat)
    (hpre : ∀ r ∈ pre, r.isFullPage = true) :
    (runLoop taxiConfig (pre ++ Response.page [] tc :: rest) 1).summary
        = ⟨(pre.map (fun r => r.records.length)).sum, pre.length + 1⟩
    ∧ (runLoop taxiConfig (pre ++ Response.page [] tc :: rest) 1).loaded
        = (pre.map Response.records).flatten := by
  have h1 := runLoop_over_full_pages taxiConfig pre
      (Response.page [] tc :: rest) 1 hpre
  rw [h1]
  constructor
  · simp [RunResult.summary, runLoop, List.length_flatten, List.map_map,
      Function.comp_def]
  · simp [runLoop]

/-- C3 witness: 2 records on page 1, an empty page 2: count = 2 over
2 pages fetched. -/
theorem C3_witness :
    (runLoop taxiConfig
        [Response.page [(10 : Nat), 20] none, Response.page [] none]
        1).summary = ⟨2, 2⟩ := by
  have h := (C3_summary_reports_totals
      [Response.page [(10 : Nat), 20] none] [] none (by decide)).1
  simpa [Response.records] using h

/-- C4: if the first response body is not valid JSON or not a JSON array,
the run fails with a decode error and zero records are loaded: the whole
destination is untouched. -/
theorem C4_decode_error_zero_loaded {α : Type} (db : Database α)
    (rest : List (Response α)) :
    (runPipeline db (Response.badBody :: rest)).1.outcome
        = Outcome.decodeError
    ∧ (runPipeline db (Response.badBody :: rest)).1.loaded = []
    ∧ ∀ d t, (runPipeline db (Response.badBody :: rest)).2 d t = db d t := by
  refine ⟨rfl, rfl, fun d t => ?_⟩
  show (if d = dataset_name ∧ t = resource_name
      then db d t ++ [] else db d t) = db d t
  split <;> simp

/-- C5: if the request cannot complete, the run fails with a network
error, zero records are loaded, and the error propagates immediately:
exactly one request was issued (no retry) and the destination is
untouched. -/
theorem C5_network_error_immediate {α : Type} (db : Database α)
    (rest : List (Response α)) :
    (runPipeline db (Response.netFail :: rest)).1.outcome = Outcome.netError
    ∧ (runPipeline db (Response.netFail :: rest)).1.loaded = []
    ∧ (runPipeline db (Response.netFail :: rest)).1.log
        = [mkRequest taxiConfig 1]
    ∧ ∀ d t, (runPipeline db (Response.netFail :: rest)).2 d t = db d t := by
  refine ⟨rfl, rfl, rfl, fun d t => ?_⟩
  show (if d = dataset_name ∧ t = resource_name
      then db d t ++ [] else db d t) = db d t
  split <;> simp

/-- C6: running the pipeline twice against the same endpoint appends the
run's records twice to the `taxi` table of the `taxi_data` dataset, so
every record occurs once per run on top of the prior contents: no dedup or
merge. -/
theorem C6_rerun_appends_duplicates {α : Type} [DecidableEq α]
    (db : Database α) (responses : List (Response α)) (a : α) :
    (runPipeline ((runPipeline db responses).2) responses).2
        dataset_name resource_name
      = db dataset_name resource_name
          ++ ((runLoop taxiConfig responses 1).loaded
              ++ (runLoop taxiConfig responses 1).loaded)
    ∧ ((runPipeline ((runPipeline db responses).2) responses).2
          dataset_name resource_name).count a
      = (db dataset_name resource_name).count a
          + 2 * ((runLoop taxiConfig responses 1).loaded).count a := by
  have happ : ∀ (db' : Database α) (L : List α),
      appendRows db' dataset_name resource_name L dataset_name resource_name
        = db' dataset_name resource_name ++ L := by
    intro db' L
    simp [appendRows]
  have key : (runPipeline ((runPipeline db responses).2) responses).2
      dataset_name resource_name
    = db dataset_name resource_name
        ++ ((runLoop taxiConfig responses 1).loaded
            ++ (runLoop taxiConfig responses 1).loaded) := by
    show appendRows (appendRows db dataset_name resource_name
          (runLoop taxiConfig responses 1).loaded)
        dataset_name resource_name
        (runLoop taxiConfig responses 1).loaded
        dataset_name resource_name
      = db dataset_name resource_name
          ++ ((runLoop taxiConfig responses 1).loaded
              ++ (runLoop taxiConfig responses 1).loaded)
    rw [happ, happ, List.append_assoc]
  refine ⟨key, ?_⟩
  rw [key, List.count_append, List.count_append]
  omega

/-- C7: when a fatal error arrives after some full pages were already
forwarded, the rows appended for those pages remain in the destination
table (no rollback), and the run ends with the corresponding error. -/
theorem C7_no_rollback_before_fatal_error {α : Type} (db : Database α)
    (pre rest : List (Response α)) (err : Response α)
    (hpre : ∀ r ∈ pre, r.isFullPage = true)
    (herr : err = Response.netFail ∨ err = Response.badBody) :
    (runPipeline db (pre ++ err :: rest)).2 dataset_name resource_name
      = db dataset_name resource_name ++ (pre.map Response.records).flatten
    ∧ ((runPipeline db (pre ++ err :: rest)).1.outcome = Outcome.netError
        ∨ (runPipeline db (pre ++ err :: rest)).1.outcome
            = Outcome.decodeError) := by
  have h1 := runLoop_over_full_pages taxiConfig pre (err :: rest)
      taxiConfig.base_page hpre
  have hpair : runPipeline db (pre ++ err :: rest)
      = (runLoop taxiConfig (pre ++ err :: rest) taxiConfig.base_page,
          appendRows db dataset_name resource_name
            (runLoop taxiConfig (pre ++ err :: rest)
              taxiConfig.base_page).loaded) := rfl
  rw [hpair, h1]
  rcases herr with h | h <;> subst h <;>
    exact ⟨by simp [runLoop, appendRows], by simp [runLoop]⟩

/-- C7 witness: one full page of one record, then a network failure: the
record stays in the destination table. -/
theorem C7_witness :
    (runPipeline ((fun _ _ => []) : Database Nat)
        ([Response.page [7] none] ++ Response.netFail :: [])).2
        dataset_name resource_name
      = ((fun _ _ => []) : Database Nat) dataset_name resource_name
          ++ ([Response.page [(7 : Nat)] none].map Response.records).flatten :=
  (C7_no_rollback_before_fatal_error _ _ _ _ (by decide) (Or.inl rfl)).1

/-- C8: the script is deterministic: for one fixed sequence of responses,
two executions — even from different accumulated destination states —
produce the identical request log, loaded records and outcome, and every
request carries the configured URL, path and headers. -/
theorem C8_deterministic {α : Type} (db1 db2 : Database α)
    (responses : List (Response α)) :
    (runPipeline db1 responses).1 = (runPipeline db2 responses).1
    ∧ ∀ req ∈ (runPipeline db1 responses).1.log,
        req.url = taxiConfig.base_url ∧ req.path = taxiConfig.path
          ∧ req.headers = taxiConfig.headers := by
  refine ⟨rfl, fun req hm => ?_⟩
  rw [show (runPipeline db1 responses).1
      = runLoop taxiConfig responses taxiConfig.base_page from rfl,
    runLoop_log_shape] at hm
  obtain ⟨p, -, rfl⟩ := List.mem_map.mp hm
  exact ⟨rfl, rfl, rfl⟩

/-- C8 witness: two executions from different destination states over the
same one-page response sequence coincide. -/
theorem C8_witness :
    (runPipeline ((fun _ _ => []) : Database Nat) [Response.page [] none]).1
      = (runPipeline ((fun _ _ => [0]) : Database Nat)
          [Response.page [] none]).1
    ∧ ∀ req ∈ (runPipeline ((fun _ _ => []) : Database Nat)
          [Response.page [] none]).1.log,
        req.url = taxiConfig.base_url ∧ req.path = taxiConfig.path
          ∧ req.headers = taxiConfig.headers :=
  C8_deterministic _ _ _

/-- C9: every request issued by the run carries the static header
`Content-Type: application/json`, on every page fetched. -/
theorem C9_content_type_on_every_request {α : Type}
    (responses : List (Response α)) :
    ∀ req ∈ (runLoop taxiConfig responses taxiConfig.base_page).log,
      ("Content-Type", "application/json") ∈ req.headers := by
  intro req hm
  rw [runLoop_log_shape] at hm
  obtain ⟨p, -, rfl⟩ := List.mem_map.mp hm
  exact List.mem_singleton.mpr rfl

/-- C9 witness: the single request of a one-page run carries the header. -/
theorem C9_witness :
    ("Content-Type", "application/json")
      ∈ (mkRequest taxiConfig 1).headers :=
  C9_content_type_on_every_request [Response.page ([] : List Nat) none]
    (mkRequest taxiConfig 1) (List.mem_singleton.mpr rfl)

/-- C10: a run writes only to the table of the resource `taxi` inside the
dataset `taxi_data`; every other dataset/table pair is left unchanged. -/
theorem C10_writes_only_taxi_table {α : Type} (db : Database α)
    (responses : List (Response α)) (d t : String)
    (h : ¬(d = dataset_name ∧ t = resource_name)) :
    (runPipeline db responses).2 d t = db d t := by
  show (if d = dataset_name ∧ t = resource_name
      then db d t
        ++ (runLoop taxiConfig responses taxiConfig.base_page).loaded
      else db d t) = db d t
  rw [if_neg h]

/-- C10 witness: a table in another dataset is untouched. -/
theorem C10_witness :
    (runPipeline ((fun _ _ => []) : Database Nat) []).2 "other" "taxi"
      = [] :=
  C10_writes_only_taxi_table _ _ "other" "taxi" (by decide)

end TaxiPipeline
